import Mathlib

/-!
Shallow embedding of the core of the `otelgen` telemetry generator
(package `pkg/otelgen`): the endpoint resolver, the size parser and
padding generator, the log-payload sizing step, the batch-processor
configuration, and the shared generation loop.  Each definition is
translated from the corresponding Go source; comments name the file
and lines it embeds.
-/

namespace Otelgen

/-- ASCII lowercasing of a string, modelling `strings.ToLower` on the
ASCII fragment (all inputs relevant here are ASCII).  `Char.toLower`
maps exactly the uppercase ASCII letters to lowercase, as Go does for
ASCII runes. -/
def strToLower (s : String) : String :=
  String.mk (s.data.map Char.toLower)

/-! ## URL parsing model (`net/url.Parse` restricted to the endpoint grammar)

`ParseEndpoint` (endpoint.go, `src/unnamed/part_004`) delegates raw-string
parsing to the standard library's `url.Parse` and then reads `u.Scheme`
(already lowercased by `url.Parse`), `u.Hostname()` and `u.Port()`.
We model `url.Parse` on the endpoint grammar `scheme://host[:port]`
(the grammar the tool documents): scheme is a nonempty run starting with
a letter and continuing with letters, digits, `+`, `-`, `.`, followed by
`://`, a host of unreserved characters, and an optional `:port` where the
port is a (possibly empty) digit run — `url.Parse` rejects non-numeric
ports and bare multi-colon authorities.  Inputs outside this grammar are
mapped to a parse failure. -/

/-- Characters `url.Parse` accepts inside a scheme after the first letter. -/
def isSchemeChar (c : Char) : Bool :=
  c.isAlpha || c.isDigit || c = '+' || c = '-' || c = '.'

/-- Unreserved host characters (letters, digits, `.`, `-`, `_`). -/
def isHostChar (c : Char) : Bool :=
  c.isAlpha || c.isDigit || c = '.' || c = '-' || c = '_'

/-- Split a character list at every occurrence of `sep` (structural,
like `strings.Split`). -/
def splitOnChar (sep : Char) : List Char → List (List Char)
  | [] => [[]]
  | c :: cs =>
    match splitOnChar sep cs with
    | [] => [[]]
    | group :: groups =>
      if c = sep then [] :: group :: groups else (c :: group) :: groups

/-- The components `ParseEndpoint` reads off the parsed URL:
`u.Scheme` (lowercased by `url.Parse`), `u.Hostname()`, `u.Port()`. -/
structure URLParts where
  scheme : String
  hostname : String
  port : String
  deriving Repr, DecidableEq

/-- Model of `url.Parse` on the `scheme://host[:port]` grammar (see the
section comment).  The scheme is lowercased, as `url.Parse` does. -/
def parseURL (s : String) : Option URLParts :=
  let cs := s.data
  let schemeChars := cs.takeWhile (fun c => c ≠ ':')
  let rest := cs.dropWhile (fun c => c ≠ ':')
  match rest with
  | ':' :: '/' :: '/' :: hostport =>
    if schemeChars ≠ [] ∧ (schemeChars.headD 'a').isAlpha ∧ schemeChars.all isSchemeChar then
      match splitOnChar ':' hostport with
      | [h] =>
        if h.all isHostChar then
          some ⟨strToLower (String.mk schemeChars), String.mk h, ""⟩
        else none
      | [h, p] =>
        if h.all isHostChar ∧ p.all Char.isDigit then
          some ⟨strToLower (String.mk schemeChars), String.mk h, String.mk p⟩
        else none
      | _ => none
    else none
  | _ => none

/-! ## Endpoint resolver (`ParseEndpoint`, `src/unnamed/part_004` lines 62-115) -/

/-- `Protocol` (part_004 lines 10-17). -/
inductive Protocol where
  | grpc
  | grpcs
  | http
  | https
  deriving Repr, DecidableEq

/-- `Endpoint` (part_004 lines 35-40). -/
structure Endpoint where
  protocol : Protocol
  host : String
  port : String
  secure : Bool
  deriving Repr, DecidableEq

/-- The scheme switch of `ParseEndpoint` (part_004 lines 81-96) as a
fixed table: recognized scheme ↦ (protocol, secure). -/
def schemeTable (sch : String) : Option (Protocol × Bool) :=
  match sch with
  | "grpc" => some (Protocol.grpc, false)
  | "grpcs" => some (Protocol.grpcs, true)
  | "http" => some (Protocol.http, false)
  | "https" => some (Protocol.https, true)
  | _ => none

/-- `ParseEndpoint` (part_004 lines 65-115): reject the empty string,
parse the URL, map the lowercased scheme through the fixed table,
default the port to `"4317"` for gRPC-based protocols and `"4318"`
otherwise when absent (lines 98-108), and reject an empty host. -/
def parseEndpoint (endpoint : String) : Except String Endpoint :=
  if endpoint = "" then Except.error "endpoint cannot be empty"
  else
    match parseURL endpoint with
    | none => Except.error "failed to parse endpoint"
    | some u =>
      match schemeTable (strToLower u.scheme) with
      | none => Except.error "unsupported protocol"
      | some (proto, sec) =>
        let port :=
          if u.port = "" then
            if proto = Protocol.grpc ∨ proto = Protocol.grpcs then "4317" else "4318"
          else u.port
        if u.hostname = "" then Except.error "host cannot be empty"
        else Except.ok { protocol := proto, host := u.hostname, port := port, secure := sec }

/-! ## Size parser (`ParseSize`, `src/pkg/otelgen/logs.go` lines 220-264) -/

/-- ASCII whitespace trimmed by `strings.TrimSpace` (the Unicode cases
are irrelevant for size literals). -/
def isSpaceChar (c : Char) : Bool :=
  c = ' ' ∨ c = '\t' ∨ c = '\n' ∨ c = '\r'

/-- `strings.TrimSpace`: drop whitespace from both ends. -/
def trimSpace (s : String) : String :=
  String.mk (((s.data.dropWhile isSpaceChar).reverse.dropWhile isSpaceChar).reverse)

/-- Characters the `ParseSize` lexer accepts in the leading numeric run
(logs.go lines 231-238): digits and the decimal point. -/
def isNumChar (c : Char) : Bool :=
  ('0' ≤ c ∧ c ≤ '9') ∨ c = '.'

/-- Value of a digit run, most significant first. -/
def digitsToNat (l : List Char) : Nat :=
  l.foldl (fun acc c => acc * 10 + (c.toNat - 48)) 0

/-- The exact value of a decimal literal: `mantissa / 10 ^ scale`.
Models the number `strconv.ParseFloat` returns; for the short literals
size strings carry, the float64 value is exact and agrees with this
rational. -/
structure Decimal where
  mantissa : Nat
  scale : Nat
  deriving Repr, DecidableEq

/-- `strconv.ParseFloat` on a run of digits and dots: at most one dot,
and at least one digit on one of its sides. -/
def parseDecimal (l : List Char) : Option Decimal :=
  match splitOnChar '.' l with
  | [ds] => some ⟨digitsToNat ds, 0⟩
  | [ip, fp] =>
    if ip = [] ∧ fp = [] then none
    else some ⟨digitsToNat ip * 10 ^ fp.length + digitsToNat fp, fp.length⟩
  | _ => none

/-- The unit switch of `ParseSize` (logs.go lines 249-261): binary
multipliers, case already lowered. -/
def unitMultiplier (u : String) : Option Nat :=
  match u with
  | "b" | "" => some 1
  | "kb" | "k" => some 1024
  | "mb" | "m" => some (1024 * 1024)
  | "gb" | "g" => some (1024 * 1024 * 1024)
  | _ => none

/-- `ParseSize` (logs.go lines 220-264): empty input yields 0; otherwise
trim and lowercase, split a leading run of digits/dots from the trailing
unit, fail when the run is absent or not a number or the unit is
unknown, and return `int64(num * multiplier)`.  The number and the
multiplier are nonnegative, so Go's truncation toward zero is
`(mantissa * multiplier) / 10 ^ scale` in natural division. -/
def parseSize (sizeStr : String) : Except String ℤ :=
  if sizeStr = "" then Except.ok 0
  else
    let s := strToLower (trimSpace sizeStr)
    let numChars := s.data.takeWhile isNumChar
    let unitChars := s.data.dropWhile isNumChar
    if numChars = [] then Except.error "invalid size format"
    else
      match parseDecimal numChars with
      | none => Except.error "invalid size number"
      | some num =>
        match unitMultiplier (String.mk unitChars) with
        | none => Except.error "unknown size unit"
        | some m => Except.ok ((num.mantissa * m / 10 ^ num.scale : Nat) : ℤ)

/-- `GeneratePadding` (logs.go lines 267-277): a buffer of `size` bytes
filled with `'x'`, the empty string when `size ≤ 0`.  Every byte is the
one-byte ASCII character `'x'`, so character count equals byte count. -/
def generatePadding (size : ℤ) : String :=
  if size ≤ 0 then "" else String.mk (List.replicate size.toNat 'x')

/-! ## Log batching configuration (`GenerateLogs`, `src/unnamed/part_003` lines 261-264) -/

/-- The two settings `GenerateLogs` passes to the SDK batch processor. -/
structure BatchProcessorConfig where
  maxQueueSize : ℤ
  exportMaxBatchSize : ℤ
  deriving Repr, DecidableEq

/-- Go's wrapping 64-bit signed integer arithmetic: reduce into
[-9223372036854775808, 9223372036854775808) = [-2^63, 2^63), the range
of `int` on the 64-bit targets this tool builds for.  The two literals
are 2^63 and 2^64. -/
def wrapInt64 (x : ℤ) : ℤ :=
  (x + 9223372036854775808) % 18446744073709551616 - 9223372036854775808

/-- `sdklog.NewBatchProcessor(exporter, WithMaxQueueSize(batchSize*2),
WithExportMaxBatchSize(batchSize))` (part_003 lines 261-264).
`batchSize` is a Go `int`, so `batchSize*2` is computed in wrapping
64-bit arithmetic; `batchSize` itself is passed through unchanged. -/
def logsBatchProcessorConfig (batchSize : ℤ) : BatchProcessorConfig :=
  { maxQueueSize := wrapInt64 (batchSize * 2), exportMaxBatchSize := batchSize }

/-! ## Log payload sizing (`generateRealisticLogPayload`, `src/unnamed/part_003` lines 129-142)

The document itself is randomized; what the sizing claim depends on is
the padding arithmetic, which is a pure function of the serialized size
of the unpadded document (`currentSize = len(jsonBytes)`) and the
requested target.  The added field serializes as
`"payload_data":"<remainingSize chars>"` plus a separating comma — the
12-character name, two pairs of quotes, a colon and a comma are 18
bytes of overhead on top of the `remainingSize` alphanumeric content
characters (which need no JSON escaping). -/

/-- Bytes the `payload_data` field adds beyond its content. -/
def payloadFieldOverhead : ℤ := 18

/-- Serialized size after the padding step of
`generateRealisticLogPayload` (part_003 lines 129-142): when a target
was requested and the document is below it, reserve 100 bytes of
headroom and add that many filler characters (when positive), then
re-serialize. -/
def paddedPayloadSize (currentSize targetSize : ℤ) : ℤ :=
  if targetSize > 0 ∧ currentSize < targetSize then
    let remainingSize := targetSize - currentSize - 100
    if remainingSize > 0 then currentSize + payloadFieldOverhead + remainingSize
    else currentSize
  else currentSize

/-! ## The generation loop (`GenerateTraces` part_002 lines 282-295,
`GenerateLogs` part_003 lines 292-303, `GenerateMetrics` metrics.go
lines 189-228)

The loop multiplexes two timer channels: a repeating ticker and the
one-shot duration timer.  We model the sequence of receptions the
`select` observes as a list of events; on a tick the per-record
generator runs and `count++`; on the deadline the count is printed and
the function returns `nil`, after which the deferred provider shutdown
runs. -/

/-- An event observed by the `select` loop. -/
inductive LoopEvent where
  | tick
  | deadline
  deriving Repr, DecidableEq

/-- Observable actions of a run. -/
inductive LoopAction where
  | printCount (n : Nat)
  | providerShutdown
  deriving Repr, DecidableEq

/-- The `select` loop body (part_002 lines 283-294 / part_003 lines
293-302): ticks increment the count; the first deadline prints the
count and returns.  An event list without a deadline leaves the loop
still blocked (the Go loop never exits without one). -/
def runLoop : List LoopEvent → Nat → Nat × List LoopAction
  | [], count => (count, [])
  | LoopEvent.deadline :: _, count => (count, [LoopAction.printCount count])
  | LoopEvent.tick :: rest, count => runLoop rest (count + 1)

/-- A whole run: the loop's actions, then the deferred provider
shutdown that executes after the loop returns (part_002 lines 263-270,
part_003 lines 275-281). -/
def generateRun (events : List LoopEvent) : List LoopAction :=
  (runLoop events 0).2 ++ [LoopAction.providerShutdown]

/-- An event of the traces loop, where the per-tick body
`generateTrace` reports success or failure (part_002 lines 288-293). -/
inductive GenEvent where
  | tick (ok : Bool)
  | deadline
  deriving Repr, DecidableEq

/-- Observable actions of the traces loop. -/
inductive GenAction where
  | logError
  | printCount (n : Nat)
  | returnOk
  deriving Repr, DecidableEq

/-- The `GenerateTraces` loop (part_002 lines 282-295): a failing
`generateTrace` only prints the error; `count++` runs on every tick
regardless; the deadline prints the count and the function returns
`nil` (success). -/
def runGenLoop : List GenEvent → Nat → Nat × List GenAction
  | [], count => (count, [])
  | GenEvent.deadline :: _, count =>
    (count, [GenAction.printCount count, GenAction.returnOk])
  | GenEvent.tick ok :: rest, count =>
    let r := runGenLoop rest (count + 1)
    (r.1, (if ok then [] else [GenAction.logError]) ++ r.2)

/-! ## Ticker construction (`time.NewTicker(time.Second / time.Duration(rate))`,
part_002 line 276, metrics.go line 183, part_003 line 286) -/

/-- The two runtime panics the ticker construction can raise. -/
inductive SetupPanic where
  | divideByZero
  | nonPositiveTickerPeriod
  deriving Repr, DecidableEq

/-- `time.Second / time.Duration(rate)` followed by `time.NewTicker`:
`time.Second` is 10^9 nanoseconds, Go's integer division panics when
`rate` is zero (`Int.tdiv` is Go's truncated division), and
`time.NewTicker` panics on a non-positive period.  This expression is
identical in all three generators and runs before any tick. -/
def tickerPeriodNs (rate : ℤ) : Except SetupPanic ℤ :=
  if rate = 0 then Except.error SetupPanic.divideByZero
  else
    let d := Int.tdiv 1000000000 rate
    if d ≤ 0 then Except.error SetupPanic.nonPositiveTickerPeriod
    else Except.ok d

/-! ## Helper lemmas -/

lemma schemeTable_eq_none {sch : String} (h1 : sch ≠ "grpc") (h2 : sch ≠ "grpcs")
    (h3 : sch ≠ "http") (h4 : sch ≠ "https") : schemeTable sch = none := by
  unfold schemeTable
  split <;> simp_all

lemma schemeTable_some_scheme {sch : String} {pr : Protocol × Bool}
    (h : schemeTable sch = some pr) :
    sch = "grpc" ∨ sch = "grpcs" ∨ sch = "http" ∨ sch = "https" := by
  unfold schemeTable at h
  split at h <;> simp_all

lemma parseURL_ne_empty {s : String} {u : URLParts} (h : parseURL s = some u) :
    s ≠ "" := by
  rintro rfl
  have hnone : parseURL "" = none := rfl
  rw [hnone] at h
  exact Option.noConfusion h

/-- `parseEndpoint` after a successful URL parse: the body from the
scheme switch on. -/
lemma parseEndpoint_of_parseURL {s : String} {u : URLParts}
    (hurl : parseURL s = some u) :
    parseEndpoint s =
      match schemeTable (strToLower u.scheme) with
      | none => Except.error "unsupported protocol"
      | some (proto, sec) =>
        if u.hostname = "" then Except.error "host cannot be empty"
        else Except.ok
          { protocol := proto, host := u.hostname,
            port := if u.port = "" then
                (if proto = Protocol.grpc ∨ proto = Protocol.grpcs then "4317" else "4318")
              else u.port,
            secure := sec } := by
  unfold parseEndpoint
  rw [if_neg (parseURL_ne_empty hurl), hurl]

/-- `parseEndpoint` when the scheme is recognized. -/
lemma parseEndpoint_table_some {s : String} {u : URLParts} {proto : Protocol}
    {sec : Bool} (hurl : parseURL s = some u)
    (ht : schemeTable (strToLower u.scheme) = some (proto, sec)) :
    parseEndpoint s =
      if u.hostname = "" then Except.error "host cannot be empty"
      else Except.ok
        { protocol := proto, host := u.hostname,
          port := if u.port = "" then
              (if proto = Protocol.grpc ∨ proto = Protocol.grpcs then "4317" else "4318")
            else u.port,
          secure := sec } := by
  rw [parseEndpoint_of_parseURL hurl, ht]

/-- `parseEndpoint` when the scheme is not recognized. -/
lemma parseEndpoint_table_none {s : String} {u : URLParts}
    (hurl : parseURL s = some u)
    (ht : schemeTable (strToLower u.scheme) = none) :
    parseEndpoint s = Except.error "unsupported protocol" := by
  rw [parseEndpoint_of_parseURL hurl, ht]

/-- The `select` loop up to the first deadline: every earlier event is
a tick, each of which increments the count; the deadline prints the
final count and stops the loop, whatever comes after. -/
lemma runLoop_first_deadline (pre post : List LoopEvent) (n : Nat)
    (h : LoopEvent.deadline ∉ pre) :
    runLoop (pre ++ LoopEvent.deadline :: post) n =
      (n + pre.length, [LoopAction.printCount (n + pre.length)]) := by
  induction pre generalizing n with
  | nil => simp [runLoop]
  | cons e rest ih =>
    cases e with
    | deadline => exact absurd (List.mem_cons_self _ _) h
    | tick =>
      have h' : LoopEvent.deadline ∉ rest := fun hm => h (List.mem_cons_of_mem _ hm)
      have harith : n + 1 + rest.length = n + (rest.length + 1) := by omega
      simp only [List.cons_append, runLoop, List.length_cons, List.append_eq]
      rw [ih (n + 1) h', harith]

/-- The action a tick of the traces loop contributes to the log:
a failed `generateTrace` prints the error (part_002 lines 289-291). -/
def tickErrorLog : GenEvent → Option GenAction
  | GenEvent.tick false => some GenAction.logError
  | _ => none

/-- The traces loop up to the first deadline: every tick — successful
or not — increments the count, every failed tick logs an error, and the
deadline prints the count and returns success. -/
lemma runGenLoop_first_deadline (pre post : List GenEvent) (n : Nat)
    (h : GenEvent.deadline ∉ pre) :
    runGenLoop (pre ++ GenEvent.deadline :: post) n =
      (n + pre.length,
        pre.filterMap tickErrorLog ++
          [GenAction.printCount (n + pre.length), GenAction.returnOk]) := by
  induction pre generalizing n with
  | nil => simp [runGenLoop]
  | cons e rest ih =>
    cases e with
    | deadline => exact absurd (List.mem_cons_self _ _) h
    | tick ok =>
      have h' : GenEvent.deadline ∉ rest := fun hm => h (List.mem_cons_of_mem _ hm)
      have harith : n + 1 + rest.length = n + (rest.length + 1) := by omega
      simp only [List.cons_append, runGenLoop, List.append_eq]
      rw [ih (n + 1) h']
      cases ok with
      | true => simp [tickErrorLog, harith]
      | false => simp [tickErrorLog, harith]

/-! ## Theorems for the specification claims -/

/-- Claim C1 (code divergence): the specification and the repository
README state default ports 443 for `grpc`/`grpcs`/`https` and 80 for
`http`, but `ParseEndpoint` (part_004 lines 98-108) defaults to
`"4317"` for the gRPC-based protocols and `"4318"` for the HTTP-based
ones — so `resolve("grpc://localhost")` yields port `"4317"`, not
`"443"`, and similarly for the other schemes.  The explicit-port half
of the claim does hold (last positive conjunct).  This theorem
evaluates the embedded code at the failing inputs. -/
theorem C1_default_ports_code_divergence :
    (parseEndpoint "grpc://localhost").toOption.map Endpoint.port = some "4317" ∧
    (parseEndpoint "grpcs://localhost").toOption.map Endpoint.port = some "4317" ∧
    (parseEndpoint "http://localhost").toOption.map Endpoint.port = some "4318" ∧
    (parseEndpoint "https://localhost").toOption.map Endpoint.port = some "4318" ∧
    (parseEndpoint "grpc://localhost:9090").toOption.map Endpoint.port = some "9090" ∧
    ("4317" : String) ≠ "443" ∧ ("4318" : String) ≠ "80" ∧ ("4318" : String) ≠ "443" := by
  refine ⟨rfl, rfl, rfl, rfl, rfl, ?_, ?_, ?_⟩ <;> decide

/-- Claim C4 (counterexample): the claimed value
`parseSize "3gb" = 3221225520` is false on the code — `ParseSize`
returns 3 × 1024³ = 3221225472. -/
theorem C4_parseSize_3gb_counterexample :
    parseSize "3gb" ≠ Except.ok 3221225520 := fun h =>
  absurd (Except.ok.inj h) (by decide)

/-- Claim C4 (amended): the §8 value table for `ParseSize`
(logs.go lines 220-264) with the `"3gb"` entry corrected to
3 × 1024³ = 3221225472: `""` ↦ 0 without error, `"1kb"` ↦ 1024,
`"1.5mb"` ↦ 1572864, `"500b"` ↦ 500, `"3gb"` ↦ 3221225472, and
`"7xb"` and `"kb"` both fail (the latter because no numeric run is
present). -/
theorem C4_parseSize_table :
    parseSize "" = Except.ok 0 ∧
    parseSize "1kb" = Except.ok 1024 ∧
    parseSize "1.5mb" = Except.ok 1572864 ∧
    parseSize "500b" = Except.ok 500 ∧
    parseSize "3gb" = Except.ok 3221225472 ∧
    (parseSize "7xb").isOk = false ∧
    (parseSize "kb").isOk = false :=
  ⟨rfl, rfl, rfl, rfl, rfl, rfl, rfl⟩

/-- Claim C5: for every `n > 0`, `GeneratePadding` (logs.go lines
267-277) returns a string of exactly `n` characters, each the fixed
fill character `'x'` (a one-byte ASCII character, so the byte length is
also `n`); for every `n ≤ 0` it returns the empty string.  Determinism
is inherent: the embedding is a pure function of `n`. -/
theorem C5_generatePadding_spec (n : ℤ) :
    (0 < n →
      (generatePadding n).length = n.toNat ∧
        ∀ c ∈ (generatePadding n).data, c = 'x') ∧
    (n ≤ 0 → generatePadding n = "") := by
  constructor
  · intro h
    have hne : ¬ n ≤ 0 := not_le.mpr h
    constructor
    · simp [generatePadding, hne, String.length]
    · intro c hc
      simp only [generatePadding, hne, if_false] at hc
      exact List.eq_of_mem_replicate hc
  · intro h
    simp [generatePadding, h]

/-- Witness for C5 at `n = 5` and `n = -1`. -/
theorem C5_generatePadding_witness :
    ((generatePadding 5).length = (5 : ℤ).toNat ∧
      ∀ c ∈ (generatePadding 5).data, c = 'x') ∧
    generatePadding (-1) = "" :=
  ⟨(C5_generatePadding_spec 5).1 (by decide),
   (C5_generatePadding_spec (-1)).2 (by decide)⟩

/-- Claim C6 (counterexample): the "for every batchSize" claim fails
on the code at `batchSize = 2^62 = 4611686018427387904`, a value the
`--batch-size` int flag accepts: `batchSize*2` wraps in 64-bit
arithmetic to `-2^63 = -9223372036854775808`, so the configured queue
capacity is negative — not at least twice `batchSize`. -/
theorem C6_queue_size_wraps_counterexample :
    (logsBatchProcessorConfig 4611686018427387904).maxQueueSize =
      -9223372036854775808 ∧
    ¬ (2 * 4611686018427387904 ≤
        (logsBatchProcessorConfig 4611686018427387904).maxQueueSize) :=
  ⟨by decide, by decide⟩

/-- Claim C6 (amended): for every `batchSize` whose doubling stays in
the 64-bit `int` range (`-2^62 ≤ batchSize < 2^62`, the two literals
below; every realistic batch size is far inside it), the logs batch
processor (part_003 lines 261-264) is configured with a maximum export
batch size equal to `batchSize` and a queue capacity (`batchSize * 2`)
of at least twice `batchSize`. -/
theorem C6_logs_batch_config (batchSize : ℤ)
    (h1 : -4611686018427387904 ≤ batchSize)
    (h2 : batchSize < 4611686018427387904) :
    (logsBatchProcessorConfig batchSize).exportMaxBatchSize = batchSize ∧
    2 * batchSize ≤ (logsBatchProcessorConfig batchSize).maxQueueSize := by
  refine ⟨rfl, ?_⟩
  simp only [logsBatchProcessorConfig, wrapInt64]
  omega

/-- Witness for C6 at the flag's default `batchSize = 512`. -/
theorem C6_logs_batch_config_witness :
    (-4611686018427387904 : ℤ) ≤ 512 ∧ (512 : ℤ) < 4611686018427387904 ∧
    ((logsBatchProcessorConfig 512).exportMaxBatchSize = 512 ∧
      2 * 512 ≤ (logsBatchProcessorConfig 512).maxQueueSize) :=
  ⟨by decide, by decide, C6_logs_batch_config 512 (by decide) (by decide)⟩

/-- Claim C7: for every requested target size `T` larger than the
serialized size of the unpadded document, the re-serialized output of
`generateRealisticLogPayload` (part_003 lines 129-142) is within 100
bytes of `T`: the padding branch lands exactly 82 bytes under target
(100 reserved minus the 18 bytes the field costs), and when the gap is
within the 100-byte reservation no padding is added and the document is
already within 100 bytes of `T`. -/
theorem C7_padded_payload_size_tolerance (currentSize targetSize : ℤ)
    (h0 : 0 ≤ currentSize) (hlt : currentSize < targetSize) :
    targetSize - 100 ≤ paddedPayloadSize currentSize targetSize ∧
    paddedPayloadSize currentSize targetSize < targetSize := by
  simp only [paddedPayloadSize, payloadFieldOverhead]
  split_ifs <;> omega

/-- Witness for C7 at `currentSize = 500`, `targetSize = 1000`. -/
theorem C7_padded_payload_size_witness :
    (0 : ℤ) ≤ 500 ∧ (500 : ℤ) < 1000 ∧
    ((1000 : ℤ) - 100 ≤ paddedPayloadSize 500 1000 ∧
      paddedPayloadSize 500 1000 < 1000) :=
  ⟨by decide, by decide,
   C7_padded_payload_size_tolerance 500 1000 (by decide) (by decide)⟩

/-- Claim C10: the ticker construction shared by the three generators
(part_002 line 276, metrics.go line 183, part_003 line 286) panics for
every `rate ≤ 0`, before any tick: `rate = 0` divides by zero, and
`rate < 0` yields a non-positive period that makes `time.NewTicker`
panic.  Hence the generators are total only for `rate ≥ 1` (and the
specification states no such precondition). -/
theorem C10_ticker_panics_for_nonpositive_rate (rate : ℤ) (h : rate ≤ 0) :
    (rate = 0 ∧ tickerPeriodNs rate = Except.error SetupPanic.divideByZero) ∨
    (rate < 0 ∧
      tickerPeriodNs rate = Except.error SetupPanic.nonPositiveTickerPeriod) := by
  rcases lt_or_eq_of_le h with hlt | heq
  · right
    refine ⟨hlt, ?_⟩
    have hz : ¬ rate = 0 := by omega
    have hneg : Int.tdiv 1000000000 rate ≤ 0 := by
      have h1 : Int.tdiv 1000000000 rate = -(Int.tdiv 1000000000 (-rate)) := by
        rw [← Int.tdiv_neg]
        simp
      rw [h1]
      simp only [Left.neg_nonpos_iff]
      exact Int.tdiv_nonneg (by omega) (by omega)
    simp [tickerPeriodNs, hz, hneg]
  · left
    subst heq
    exact ⟨rfl, rfl⟩

/-- Witness for C10 at `rate = -1` (the `NewTicker` panic branch) —
`rate = 0` hits the division-by-zero branch, checked directly from the
definition in the second conjunct. -/
theorem C10_ticker_panics_witness :
    (((-1 : ℤ) = 0 ∧ tickerPeriodNs (-1) = Except.error SetupPanic.divideByZero) ∨
      ((-1 : ℤ) < 0 ∧
        tickerPeriodNs (-1) = Except.error SetupPanic.nonPositiveTickerPeriod)) ∧
    tickerPeriodNs 0 = Except.error SetupPanic.divideByZero :=
  ⟨C10_ticker_panics_for_nonpositive_rate (-1) (by decide), rfl⟩

/-- Claim C2: for an endpoint string whose URL parse yields scheme `sch`
(lowercased modulo letter case, as `url.Parse` and the switch's
`strings.ToLower` do) and a nonempty host, `ParseEndpoint` (part_004
lines 81-96) returns the matching `{protocol, secure}` pair — secure
exactly for `grpcs` and `https` — and fails for every other scheme. -/
theorem C2_scheme_protocol_secure_mapping (s : String) (u : URLParts)
    (hurl : parseURL s = some u) (hhost : u.hostname ≠ "") :
    (strToLower u.scheme = "grpc" →
      (parseEndpoint s).toOption.map (fun ep => (ep.protocol, ep.secure)) =
        some (Protocol.grpc, false)) ∧
    (strToLower u.scheme = "grpcs" →
      (parseEndpoint s).toOption.map (fun ep => (ep.protocol, ep.secure)) =
        some (Protocol.grpcs, true)) ∧
    (strToLower u.scheme = "http" →
      (parseEndpoint s).toOption.map (fun ep => (ep.protocol, ep.secure)) =
        some (Protocol.http, false)) ∧
    (strToLower u.scheme = "https" →
      (parseEndpoint s).toOption.map (fun ep => (ep.protocol, ep.secure)) =
        some (Protocol.https, true)) ∧
    (strToLower u.scheme ≠ "grpc" ∧ strToLower u.scheme ≠ "grpcs" ∧
      strToLower u.scheme ≠ "http" ∧ strToLower u.scheme ≠ "https" →
      (parseEndpoint s).isOk = false) := by
  refine ⟨?_, ?_, ?_, ?_, ?_⟩
  · intro h
    have ht : schemeTable (strToLower u.scheme) = some (Protocol.grpc, false) := by
      rw [h]; rfl
    rw [parseEndpoint_table_some hurl ht, if_neg hhost]
    rfl
  · intro h
    have ht : schemeTable (strToLower u.scheme) = some (Protocol.grpcs, true) := by
      rw [h]; rfl
    rw [parseEndpoint_table_some hurl ht, if_neg hhost]
    rfl
  · intro h
    have ht : schemeTable (strToLower u.scheme) = some (Protocol.http, false) := by
      rw [h]; rfl
    rw [parseEndpoint_table_some hurl ht, if_neg hhost]
    rfl
  · intro h
    have ht : schemeTable (strToLower u.scheme) = some (Protocol.https, true) := by
      rw [h]; rfl
    rw [parseEndpoint_table_some hurl ht, if_neg hhost]
    rfl
  · rintro ⟨h1, h2, h3, h4⟩
    rw [parseEndpoint_table_none hurl (schemeTable_eq_none h1 h2 h3 h4)]
    rfl

/-- Witness for C2 at the mixed-case input `"GrPcS://Example.com"`,
whose URL parse yields scheme `"grpcs"`: the result is the secure gRPC
protocol pair. -/
theorem C2_scheme_mapping_witness :
    (parseEndpoint "GrPcS://Example.com").toOption.map
        (fun ep => (ep.protocol, ep.secure)) =
      some (Protocol.grpcs, true) :=
  (C2_scheme_protocol_secure_mapping "GrPcS://Example.com"
      ⟨"grpcs", "Example.com", ""⟩ rfl (by decide)).2.1 rfl

/-- Claim C3: `ParseEndpoint` (part_004 lines 65-115) fails exactly
when the input is empty, the URL does not parse, the (lowercased)
scheme is not one of the four recognized values, or the resolved host
is empty; in particular `resolve("")` and `resolve("grpc://")` both
fail, and every input with none of these conditions succeeds. -/
theorem C3_resolve_error_conditions :
    (∀ s : String, (parseEndpoint s).isOk = true ↔
      (s ≠ "" ∧ ∃ u, parseURL s = some u ∧
        (strToLower u.scheme = "grpc" ∨ strToLower u.scheme = "grpcs" ∨
          strToLower u.scheme = "http" ∨ strToLower u.scheme = "https") ∧
        u.hostname ≠ "")) ∧
    (parseEndpoint "").isOk = false ∧
    (parseEndpoint "grpc://").isOk = false := by
  refine ⟨?_, rfl, rfl⟩
  intro s
  constructor
  · intro hok
    by_cases hs : s = ""
    · subst hs
      exact Bool.noConfusion hok
    · refine ⟨hs, ?_⟩
      cases hp : parseURL s with
      | none =>
        unfold parseEndpoint at hok
        rw [if_neg hs, hp] at hok
        exact Bool.noConfusion hok
      | some u =>
        refine ⟨u, rfl, ?_⟩
        cases ht : schemeTable (strToLower u.scheme) with
        | none =>
          rw [parseEndpoint_table_none hp ht] at hok
          exact Bool.noConfusion hok
        | some pr =>
          obtain ⟨proto, sec⟩ := pr
          rw [parseEndpoint_table_some hp ht] at hok
          refine ⟨schemeTable_some_scheme ht, ?_⟩
          intro hh
          rw [if_pos hh] at hok
          exact Bool.noConfusion hok
  · rintro ⟨hs, u, hp, hdisj, hh⟩
    rcases hdisj with h | h | h | h
    · have ht : schemeTable (strToLower u.scheme) = some (Protocol.grpc, false) := by
        rw [h]; rfl
      rw [parseEndpoint_table_some hp ht, if_neg hh]
      rfl
    · have ht : schemeTable (strToLower u.scheme) = some (Protocol.grpcs, true) := by
        rw [h]; rfl
      rw [parseEndpoint_table_some hp ht, if_neg hh]
      rfl
    · have ht : schemeTable (strToLower u.scheme) = some (Protocol.http, false) := by
        rw [h]; rfl
      rw [parseEndpoint_table_some hp ht, if_neg hh]
      rfl
    · have ht : schemeTable (strToLower u.scheme) = some (Protocol.https, true) := by
        rw [h]; rfl
      rw [parseEndpoint_table_some hp ht, if_neg hh]
      rfl

/-- Claim C8: in every run of the generation loop (part_002 lines
282-295, part_003 lines 292-303), no tick after the first deadline is
processed — the printed count is the number of ticks before it,
independent of anything after — the count is printed exactly once, on
observing the deadline, and the provider shutdown action happens after
the loop's print, so the reported count cannot change once printed. -/
theorem C8_shutdown_ordering (pre post : List LoopEvent)
    (h : LoopEvent.deadline ∉ pre) :
    generateRun (pre ++ LoopEvent.deadline :: post) =
      [LoopAction.printCount pre.length, LoopAction.providerShutdown] := by
  simp only [generateRun, runLoop_first_deadline pre post 0 h]
  simp

/-- Witness for C8 with two ticks before the deadline and one after:
the run prints exactly 2 and then shuts down. -/
theorem C8_shutdown_ordering_witness :
    generateRun ([LoopEvent.tick, LoopEvent.tick] ++
        LoopEvent.deadline :: [LoopEvent.tick]) =
      [LoopAction.printCount 2, LoopAction.providerShutdown] :=
  C8_shutdown_ordering [LoopEvent.tick, LoopEvent.tick] [LoopEvent.tick]
    (by decide)

/-- Claim C9: in the traces loop (part_002 lines 282-295) every tick
before the deadline — failed or not — increments the count, each failed
tick only logs an error and the loop continues, and the loop's outcome
on reaching the deadline is success (it returns `nil`), so per-tick
failures never change the run's zero-exit outcome. -/
theorem C9_per_tick_failures_nonfatal (pre post : List GenEvent)
    (h : GenEvent.deadline ∉ pre) :
    (runGenLoop (pre ++ GenEvent.deadline :: post) 0).1 = pre.length ∧
    (runGenLoop (pre ++ GenEvent.deadline :: post) 0).2 =
      pre.filterMap tickErrorLog ++
        [GenAction.printCount pre.length, GenAction.returnOk] := by
  rw [runGenLoop_first_deadline pre post 0 h]
  simp

/-- Witness for C9 with one successful and one failed tick: the count
is 2, the failure is logged, and the loop still returns success. -/
theorem C9_per_tick_failures_witness :
    (runGenLoop ([GenEvent.tick true, GenEvent.tick false] ++
        GenEvent.deadline :: []) 0).1 = 2 ∧
    (runGenLoop ([GenEvent.tick true, GenEvent.tick false] ++
        GenEvent.deadline :: []) 0).2 =
      [GenAction.logError, GenAction.printCount 2, GenAction.returnOk] :=
  ⟨(C9_per_tick_failures_nonfatal [GenEvent.tick true, GenEvent.tick false] []
      (by decide)).1,
   (C9_per_tick_failures_nonfatal [GenEvent.tick true, GenEvent.tick false] []
      (by decide)).2⟩

end Otelgen
